import Mathlib

/-!
Verification of the device-creation interception shim in
`src/proxy-wddm/kmd/ljb_dxgk_create_device.c` (functions
`LJB_DXGK_CreateDevice` and `LJB_DXGK_FindDevice`).

Shallow embedding: handles and pointers are `Nat` (0 plays the role of
`NULL`), the 32-bit `NTSTATUS` is a `Nat` below `2^32`, the global
device list is a `List LJB_DEVICE` in insertion order (`InsertTailList`
appends at the end; the lookup loop walks from `Flink`, i.e. from the
head of the list), and the inbox driver `DxgkDdiCreateDevice` is a
parameter mutating the request in place, modelled as a function from
the request to the (possibly rewritten) request together with a status.
The contents of driver-provided info blocks are modelled by a heap
function from pointer values to abstract `DXGK_DEVICE_INFO` payloads.

Side effects relevant to the temporal claims (allocation, delegation,
field finalization, spin-lock acquire/release, list insertion, lookup
scan, freeing) are recorded as an event trace emitted by the very same
definitions that compute the result.
-/

/-- The macro `NT_SUCCESS(Status)` is `((NTSTATUS)(Status) >= 0)` on a
signed 32-bit value, i.e. the unsigned value is below `2^31`. -/
def ntSuccess (s : Nat) : Bool := s < 2^31

def STATUS_SUCCESS : Nat := 0

def STATUS_NO_MEMORY : Nat := 0xC0000017

/-- Constant `DXGKDDI_INTERFACE_VERSION_WDDM2_0` from the WDK headers. -/
def DXGKDDI_INTERFACE_VERSION_WDDM2_0 : Nat := 0x4002

/-- The caller-visible `DXGKARG_CREATEDEVICE` request block.  `hDevice`
is the runtime handle on input and is overwritten in place by the inbox
driver with its own handle; `pInfo` is an info-block pointer the driver
may rewrite. -/
structure DXGKARG_CREATEDEVICE where
  hDevice : Nat
  Flags : Nat
  pInfo : Nat
  Pasid : Nat
  hKmdProcess : Nat
deriving DecidableEq, Repr

/-- The shadow record `LJB_DEVICE` (the fields this file touches).
`CreateDevice` is the embedded snapshot of the creation arguments;
`DeviceInfo` holds the captured `DXGK_DEVICE_INFO` payload. -/
structure LJB_DEVICE where
  hRTDevice : Nat
  Adapter : Nat
  CreateDevice : DXGKARG_CREATEDEVICE
  hDevice : Nat
  DeviceInfo : Nat
deriving DecidableEq, Repr

/-- Allocation by `LJB_PROXYKMD_GetPoolZero(sizeof(LJB_DEVICE))` yields
a zero-initialized record: every field, including the snapshot
`CreateDevice.pInfo`, starts at 0. -/
def zeroDevice : LJB_DEVICE :=
  { hRTDevice := 0, Adapter := 0
    CreateDevice := { hDevice := 0, Flags := 0, pInfo := 0, Pasid := 0, hKmdProcess := 0 }
    hDevice := 0, DeviceInfo := 0 }

/-- Events emitted by the embedded functions, for the temporal claims. -/
inductive Event where
  | allocate
  | freePool
  | delegate
  | writeDriverHandle
  | lockAcquire
  | listInsert
  | listScan
  | lockRelease
deriving DecidableEq, Repr

/-- Lines 90–101: populate the freshly zero-allocated record from the
request.  `hRTDevice` and the snapshot's `hDevice`/`Flags` are copied
unconditionally; `Pasid`/`hKmdProcess` only when the inbox driver's
interface version is at least WDDM 2.0.  Note the snapshot's `pInfo`
field is never assigned, so it keeps its zero pool value. -/
def populateDevice (Version : Nat) (Adapter : Nat)
    (pCreateDevice : DXGKARG_CREATEDEVICE) : LJB_DEVICE :=
  let d1 := { zeroDevice with
    hRTDevice := pCreateDevice.hDevice
    Adapter := Adapter
    CreateDevice := { zeroDevice.CreateDevice with
      hDevice := pCreateDevice.hDevice
      Flags := pCreateDevice.Flags } }
  if Version ≥ DXGKDDI_INTERFACE_VERSION_WDDM2_0 then
    { d1 with CreateDevice := { d1.CreateDevice with
        Pasid := pCreateDevice.Pasid
        hKmdProcess := pCreateDevice.hKmdProcess } }
  else
    d1

/-- Lines 115–120: after successful delegation, track what the driver
returned: copy the driver-written handle into `hDevice`, and capture
`*pCreateDevice->pInfo` into `DeviceInfo` when the driver-written
`pInfo` differs from the snapshot's (never-assigned, hence zero)
`CreateDevice.pInfo`. -/
def finalizeDevice (dev : LJB_DEVICE) (req : DXGKARG_CREATEDEVICE)
    (infoHeap : Nat → Nat) : LJB_DEVICE :=
  let d := { dev with hDevice := req.hDevice }
  if req.pInfo ≠ d.CreateDevice.pInfo then
    { d with DeviceInfo := infoHeap req.pInfo }
  else
    d

/-- Result of one `LJB_DXGK_CreateDevice` call: the returned `NTSTATUS`,
the global device list afterwards, the caller-visible request block
afterwards (the driver mutates it in place and the shim never restores
it), and the emitted event trace. -/
structure CreateResult where
  status : Nat
  registry : List LJB_DEVICE
  request : DXGKARG_CREATEDEVICE
  trace : List Event
deriving Repr

/-- Function `LJB_DXGK_CreateDevice` (lines 64–134).  `allocOk` is the outcome of
the pool allocation; `driver` is `DriverInitData->DxgkDdiCreateDevice`,
taking the request and returning the in-place-mutated request together
with its `NTSTATUS`; `infoHeap` gives the contents of info blocks at
the time line 120 dereferences `pCreateDevice->pInfo`. -/
def LJB_DXGK_CreateDevice (Version : Nat) (Adapter : Nat) (allocOk : Bool)
    (driver : DXGKARG_CREATEDEVICE → DXGKARG_CREATEDEVICE × Nat)
    (infoHeap : Nat → Nat)
    (registry : List LJB_DEVICE)
    (pCreateDevice : DXGKARG_CREATEDEVICE) : CreateResult :=
  if allocOk = false then
    { status := STATUS_NO_MEMORY, registry := registry
      request := pCreateDevice, trace := [Event.allocate] }
  else
    let MyDevice := populateDevice Version Adapter pCreateDevice
    let call := driver pCreateDevice
    let req := call.1
    let ntStatus := call.2
    if ntSuccess ntStatus = false then
      { status := ntStatus, registry := registry, request := req
        trace := [Event.allocate, Event.delegate, Event.freePool] }
    else
      let final := finalizeDevice MyDevice req infoHeap
      { status := ntStatus
        registry := registry ++ [final]
        request := req
        trace := [Event.allocate, Event.delegate, Event.writeDriverHandle,
                  Event.lockAcquire, Event.listInsert, Event.lockRelease] }

/-- The loop of `LJB_DXGK_FindDevice` (lines 148–160): walk the list
from the head, return the first record whose `hDevice` matches. -/
def findLoop (h : Nat) : List LJB_DEVICE → Option LJB_DEVICE
  | [] => none
  | d :: rest => if d.hDevice = h then some d else findLoop h rest

/-- Function `LJB_DXGK_FindDevice` (lines 136–164): under the spin lock, scan
the global list and return the first match, or `NULL` (`none`) when no
record matches.  The list itself is not mutated; the returned pair
makes the (unchanged) list state explicit, with the emitted trace. -/
def LJB_DXGK_FindDevice (registry : List LJB_DEVICE) (hDevice : Nat) :
    List LJB_DEVICE × Option LJB_DEVICE × List Event :=
  (registry, findLoop hDevice registry,
   [Event.lockAcquire, Event.listScan, Event.lockRelease])

/-- Net spin-lock depth of a trace: acquisitions minus releases. -/
def lockDepth (t : List Event) : Nat :=
  (t.count Event.lockAcquire) - (t.count Event.lockRelease)

/-- Number of registry records matching a handle. -/
def countMatches (registry : List LJB_DEVICE) (h : Nat) : Nat :=
  registry.countP (fun d => d.hDevice = h)

/-- First index at which an event occurs in a trace. -/
def evIdx (e : Event) (t : List Event) : Nat :=
  t.findIdx (fun x => x == e)

/-- Trace emitted by one `LJB_DXGK_CreateDevice` call. -/
def createTrace (V A : Nat) (allocOk : Bool)
    (driver : DXGKARG_CREATEDEVICE → DXGKARG_CREATEDEVICE × Nat)
    (infoHeap : Nat → Nat) (registry : List LJB_DEVICE)
    (req : DXGKARG_CREATEDEVICE) : List Event :=
  (LJB_DXGK_CreateDevice V A allocOk driver infoHeap registry req).trace

/-- Trace emitted by one `LJB_DXGK_FindDevice` call. -/
def findTrace (registry : List LJB_DEVICE) (h : Nat) : List Event :=
  (LJB_DXGK_FindDevice registry h).2.2

/- Helper lemmas about the record lifecycle. -/

theorem populateDevice_hRTDevice (V A : Nat) (req : DXGKARG_CREATEDEVICE) :
    (populateDevice V A req).hRTDevice = req.hDevice := by
  unfold populateDevice
  split <;> rfl

theorem populateDevice_pInfo (V A : Nat) (req : DXGKARG_CREATEDEVICE) :
    (populateDevice V A req).CreateDevice.pInfo = 0 := by
  unfold populateDevice
  split <;> rfl

theorem finalizeDevice_hDevice (dev : LJB_DEVICE) (req : DXGKARG_CREATEDEVICE)
    (infoHeap : Nat → Nat) :
    (finalizeDevice dev req infoHeap).hDevice = req.hDevice := by
  simp only [finalizeDevice]
  split <;> rfl

theorem finalizeDevice_hRTDevice (dev : LJB_DEVICE) (req : DXGKARG_CREATEDEVICE)
    (infoHeap : Nat → Nat) :
    (finalizeDevice dev req infoHeap).hRTDevice = dev.hRTDevice := by
  simp only [finalizeDevice]
  split <;> rfl

theorem finalizeDevice_CreateDevice (dev : LJB_DEVICE) (req : DXGKARG_CREATEDEVICE)
    (infoHeap : Nat → Nat) :
    (finalizeDevice dev req infoHeap).CreateDevice = dev.CreateDevice := by
  simp only [finalizeDevice]
  split <;> rfl

theorem finalizeDevice_DeviceInfo (dev : LJB_DEVICE) (req : DXGKARG_CREATEDEVICE)
    (infoHeap : Nat → Nat) (h : dev.CreateDevice.pInfo = 0) :
    (finalizeDevice dev req infoHeap).DeviceInfo =
      if req.pInfo ≠ 0 then infoHeap req.pInfo else dev.DeviceInfo := by
  simp only [finalizeDevice, h]
  split <;> simp_all

/- Characterization of the success path of `LJB_DXGK_CreateDevice`. -/

theorem createDevice_success (V A : Nat)
    (driver : DXGKARG_CREATEDEVICE → DXGKARG_CREATEDEVICE × Nat)
    (infoHeap : Nat → Nat) (registry : List LJB_DEVICE)
    (req : DXGKARG_CREATEDEVICE)
    (hs : ntSuccess (driver req).2 = true) :
    LJB_DXGK_CreateDevice V A true driver infoHeap registry req =
      { status := (driver req).2
        registry := registry ++
          [finalizeDevice (populateDevice V A req) (driver req).1 infoHeap]
        request := (driver req).1
        trace := [Event.allocate, Event.delegate, Event.writeDriverHandle,
                  Event.lockAcquire, Event.listInsert, Event.lockRelease] } := by
  unfold LJB_DXGK_CreateDevice
  simp [hs]

theorem createDevice_downstream_failure (V A : Nat)
    (driver : DXGKARG_CREATEDEVICE → DXGKARG_CREATEDEVICE × Nat)
    (infoHeap : Nat → Nat) (registry : List LJB_DEVICE)
    (req : DXGKARG_CREATEDEVICE)
    (hs : ntSuccess (driver req).2 = false) :
    LJB_DXGK_CreateDevice V A true driver infoHeap registry req =
      { status := (driver req).2
        registry := registry
        request := (driver req).1
        trace := [Event.allocate, Event.delegate, Event.freePool] } := by
  unfold LJB_DXGK_CreateDevice
  simp [hs]

theorem populateDevice_DeviceInfo (V A : Nat) (req : DXGKARG_CREATEDEVICE) :
    (populateDevice V A req).DeviceInfo = 0 := by
  simp only [populateDevice]
  split <;> rfl

theorem createDevice_alloc_failure (V A : Nat)
    (driver : DXGKARG_CREATEDEVICE → DXGKARG_CREATEDEVICE × Nat)
    (infoHeap : Nat → Nat) (registry : List LJB_DEVICE)
    (req : DXGKARG_CREATEDEVICE) :
    LJB_DXGK_CreateDevice V A false driver infoHeap registry req =
      { status := STATUS_NO_MEMORY, registry := registry
        request := req, trace := [Event.allocate] } := rfl

/-- C3: when the pool allocation fails, `LJB_DXGK_CreateDevice` returns
`STATUS_NO_MEMORY`, the inbox driver is never invoked (no `delegate`
event in the trace), and neither the global device list nor the request
block is modified. -/
theorem C3_alloc_failure_short_circuit (V A : Nat)
    (driver : DXGKARG_CREATEDEVICE → DXGKARG_CREATEDEVICE × Nat)
    (infoHeap : Nat → Nat) (registry : List LJB_DEVICE)
    (req : DXGKARG_CREATEDEVICE) :
    (LJB_DXGK_CreateDevice V A false driver infoHeap registry req).status = STATUS_NO_MEMORY
    ∧ (LJB_DXGK_CreateDevice V A false driver infoHeap registry req).registry = registry
    ∧ (LJB_DXGK_CreateDevice V A false driver infoHeap registry req).request = req
    ∧ Event.delegate ∉ (LJB_DXGK_CreateDevice V A false driver infoHeap registry req).trace
    ∧ Event.listInsert ∉ (LJB_DXGK_CreateDevice V A false driver infoHeap registry req).trace := by
  rw [createDevice_alloc_failure V A driver infoHeap registry req]
  refine ⟨rfl, rfl, rfl, ?_, ?_⟩ <;> simp

/-- C4: the process-association fields `Pasid` and `hKmdProcess` of the
shadow record's snapshot are copied from the request exactly when the
interface version is at least `DXGKDDI_INTERFACE_VERSION_WDDM2_0`, and
stay at their zero pool value otherwise, regardless of the request's
values; the post-delegation finalization never touches the snapshot. -/
theorem C4_process_association_version_gate (V A : Nat)
    (req : DXGKARG_CREATEDEVICE) (dev : LJB_DEVICE)
    (drvReq : DXGKARG_CREATEDEVICE) (infoHeap : Nat → Nat) :
    (populateDevice V A req).CreateDevice.Pasid =
      (if V ≥ DXGKDDI_INTERFACE_VERSION_WDDM2_0 then req.Pasid else 0)
    ∧ (populateDevice V A req).CreateDevice.hKmdProcess =
      (if V ≥ DXGKDDI_INTERFACE_VERSION_WDDM2_0 then req.hKmdProcess else 0)
    ∧ (finalizeDevice dev drvReq infoHeap).CreateDevice = dev.CreateDevice := by
  refine ⟨?_, ?_, finalizeDevice_CreateDevice dev drvReq infoHeap⟩
  · by_cases h : V ≥ DXGKDDI_INTERFACE_VERSION_WDDM2_0 <;>
      simp [populateDevice, h, zeroDevice]
  · by_cases h : V ≥ DXGKDDI_INTERFACE_VERSION_WDDM2_0 <;>
      simp [populateDevice, h, zeroDevice]

/-- C2: when the inbox driver's creation call fails, the shadow record
is freed (a `freePool` event is emitted and nothing is inserted), the
global device list is unchanged, and the driver's failure status is
returned verbatim. -/
theorem C2_downstream_failure_unwind (V A : Nat)
    (driver : DXGKARG_CREATEDEVICE → DXGKARG_CREATEDEVICE × Nat)
    (infoHeap : Nat → Nat) (registry : List LJB_DEVICE)
    (req : DXGKARG_CREATEDEVICE)
    (hs : ntSuccess (driver req).2 = false) :
    (LJB_DXGK_CreateDevice V A true driver infoHeap registry req).status = (driver req).2
    ∧ (LJB_DXGK_CreateDevice V A true driver infoHeap registry req).registry = registry
    ∧ Event.freePool ∈ (LJB_DXGK_CreateDevice V A true driver infoHeap registry req).trace
    ∧ Event.listInsert ∉ (LJB_DXGK_CreateDevice V A true driver infoHeap registry req).trace := by
  rw [createDevice_downstream_failure V A driver infoHeap registry req hs]
  refine ⟨rfl, rfl, ?_, ?_⟩ <;> simp

/-- Witness for C2 at a concrete input: the driver rejects the request
with `STATUS_UNSUCCESSFUL` (`0xC0000001`). -/
theorem C2_downstream_failure_unwind_witness :
    ntSuccess ((fun q : DXGKARG_CREATEDEVICE => (q, 0xC0000001))
        { hDevice := 256, Flags := 1, pInfo := 0, Pasid := 0, hKmdProcess := 0 }).2 = false
    ∧ ((LJB_DXGK_CreateDevice 0x4002 0 true
          (fun q : DXGKARG_CREATEDEVICE => (q, 0xC0000001)) (fun p => p) []
          { hDevice := 256, Flags := 1, pInfo := 0, Pasid := 0, hKmdProcess := 0 }).status =
        ((fun q : DXGKARG_CREATEDEVICE => (q, 0xC0000001))
          { hDevice := 256, Flags := 1, pInfo := 0, Pasid := 0, hKmdProcess := 0 }).2
      ∧ (LJB_DXGK_CreateDevice 0x4002 0 true
          (fun q : DXGKARG_CREATEDEVICE => (q, 0xC0000001)) (fun p => p) []
          { hDevice := 256, Flags := 1, pInfo := 0, Pasid := 0, hKmdProcess := 0 }).registry = []
      ∧ Event.freePool ∈ (LJB_DXGK_CreateDevice 0x4002 0 true
          (fun q : DXGKARG_CREATEDEVICE => (q, 0xC0000001)) (fun p => p) []
          { hDevice := 256, Flags := 1, pInfo := 0, Pasid := 0, hKmdProcess := 0 }).trace
      ∧ Event.listInsert ∉ (LJB_DXGK_CreateDevice 0x4002 0 true
          (fun q : DXGKARG_CREATEDEVICE => (q, 0xC0000001)) (fun p => p) []
          { hDevice := 256, Flags := 1, pInfo := 0, Pasid := 0, hKmdProcess := 0 }).trace) :=
  ⟨by decide,
   C2_downstream_failure_unwind 0x4002 0
     (fun q : DXGKARG_CREATEDEVICE => (q, 0xC0000001)) (fun p => p) []
     { hDevice := 256, Flags := 1, pInfo := 0, Pasid := 0, hKmdProcess := 0 } (by decide)⟩

/-- C9: whenever the downstream call completes (allocation succeeded),
the status `LJB_DXGK_CreateDevice` returns is exactly the status the
inbox driver returned — on the failure path and on the success path
alike, with no canonicalization of non-zero success codes. -/
theorem C9_status_passthrough (V A : Nat)
    (driver : DXGKARG_CREATEDEVICE → DXGKARG_CREATEDEVICE × Nat)
    (infoHeap : Nat → Nat) (registry : List LJB_DEVICE)
    (req : DXGKARG_CREATEDEVICE) :
    (LJB_DXGK_CreateDevice V A true driver infoHeap registry req).status = (driver req).2 := by
  cases hs : ntSuccess (driver req).2 with
  | false => rw [createDevice_downstream_failure V A driver infoHeap registry req hs]
  | true => rw [createDevice_success V A driver infoHeap registry req hs]

/-- C10: on a downstream failure only the shadow record is unwound: the
caller-visible request block keeps every in-place mutation the driver
made before failing (it is not restored to its pre-call contents), the
failure status is returned, and the device list is untouched. -/
theorem C10_request_mutations_survive_failure (V A : Nat)
    (driver : DXGKARG_CREATEDEVICE → DXGKARG_CREATEDEVICE × Nat)
    (infoHeap : Nat → Nat) (registry : List LJB_DEVICE)
    (req : DXGKARG_CREATEDEVICE)
    (hs : ntSuccess (driver req).2 = false) :
    (LJB_DXGK_CreateDevice V A true driver infoHeap registry req).request = (driver req).1
    ∧ (LJB_DXGK_CreateDevice V A true driver infoHeap registry req).status = (driver req).2
    ∧ (LJB_DXGK_CreateDevice V A true driver infoHeap registry req).registry = registry := by
  rw [createDevice_downstream_failure V A driver infoHeap registry req hs]
  exact ⟨rfl, rfl, rfl⟩

/-- Witness for C10 at a concrete input: the driver overwrites the
request's handle and info pointer in place, then fails; the mutated
values remain visible to the caller. -/
theorem C10_request_mutations_survive_failure_witness :
    ntSuccess ((fun q : DXGKARG_CREATEDEVICE =>
        ({ q with hDevice := 0x999, pInfo := 77 }, 0xC0000001))
        { hDevice := 256, Flags := 1, pInfo := 5, Pasid := 0, hKmdProcess := 0 }).2 = false
    ∧ ((LJB_DXGK_CreateDevice 0 0 true
          (fun q : DXGKARG_CREATEDEVICE =>
            ({ q with hDevice := 0x999, pInfo := 77 }, 0xC0000001)) (fun p => p) []
          { hDevice := 256, Flags := 1, pInfo := 5, Pasid := 0, hKmdProcess := 0 }).request =
        ((fun q : DXGKARG_CREATEDEVICE =>
            ({ q with hDevice := 0x999, pInfo := 77 }, 0xC0000001))
          { hDevice := 256, Flags := 1, pInfo := 5, Pasid := 0, hKmdProcess := 0 }).1
      ∧ (LJB_DXGK_CreateDevice 0 0 true
          (fun q : DXGKARG_CREATEDEVICE =>
            ({ q with hDevice := 0x999, pInfo := 77 }, 0xC0000001)) (fun p => p) []
          { hDevice := 256, Flags := 1, pInfo := 5, Pasid := 0, hKmdProcess := 0 }).status =
        ((fun q : DXGKARG_CREATEDEVICE =>
            ({ q with hDevice := 0x999, pInfo := 77 }, 0xC0000001))
          { hDevice := 256, Flags := 1, pInfo := 5, Pasid := 0, hKmdProcess := 0 }).2
      ∧ (LJB_DXGK_CreateDevice 0 0 true
          (fun q : DXGKARG_CREATEDEVICE =>
            ({ q with hDevice := 0x999, pInfo := 77 }, 0xC0000001)) (fun p => p) []
          { hDevice := 256, Flags := 1, pInfo := 5, Pasid := 0, hKmdProcess := 0 }).registry = []) :=
  ⟨by decide,
   C10_request_mutations_survive_failure 0 0
     (fun q : DXGKARG_CREATEDEVICE =>
       ({ q with hDevice := 0x999, pInfo := 77 }, 0xC0000001)) (fun p => p) []
     { hDevice := 256, Flags := 1, pInfo := 5, Pasid := 0, hKmdProcess := 0 } (by decide)⟩

/-- C1 counterexample: the claim says `DeviceInfo` is captured iff the
driver-written info pointer differs from the one originally passed by
the caller.  Here the caller passes `pInfo = 5`, the driver returns
success leaving the request (including `pInfo`) unchanged, so under the
claim `DeviceInfo` must stay 0 — yet the code captures the info block
(`DeviceInfo = 105`), because line 119 compares against the snapshot's
`CreateDevice.pInfo`, which is never assigned from the request and
still holds its zero pool value. -/
theorem C1_capture_counterexample :
    ((LJB_DXGK_CreateDevice 0 0 true (fun q => (q, 0)) (fun p => p + 100) []
        { hDevice := 256, Flags := 1, pInfo := 5, Pasid := 0, hKmdProcess := 0 }).request.pInfo
      = (5 : Nat))
    ∧ ((LJB_DXGK_CreateDevice 0 0 true (fun q => (q, 0)) (fun p => p + 100) []
        { hDevice := 256, Flags := 1, pInfo := 5, Pasid := 0, hKmdProcess := 0 }).registry.map
          LJB_DEVICE.DeviceInfo = [105])
    ∧ ¬ (∀ dev ∈ (LJB_DXGK_CreateDevice 0 0 true (fun q => (q, 0)) (fun p => p + 100) []
        { hDevice := 256, Flags := 1, pInfo := 5, Pasid := 0, hKmdProcess := 0 }).registry,
          dev.DeviceInfo = 0) := by
  decide

/-- C1 (amended): after a successful delegation the published record's
`DeviceInfo` is captured from the driver-written info pointer iff that
pointer is non-null — the comparison is against the zero-initialized
snapshot field `CreateDevice.pInfo`, which is never populated from the
caller's original pointer; otherwise `DeviceInfo` stays 0. -/
theorem C1_capture_iff_nonnull (V A : Nat)
    (driver : DXGKARG_CREATEDEVICE → DXGKARG_CREATEDEVICE × Nat)
    (infoHeap : Nat → Nat) (registry : List LJB_DEVICE)
    (req : DXGKARG_CREATEDEVICE)
    (hs : ntSuccess (driver req).2 = true) :
    ∃ dev, (LJB_DXGK_CreateDevice V A true driver infoHeap registry req).registry
        = registry ++ [dev]
      ∧ dev.DeviceInfo =
          (if (driver req).1.pInfo ≠ 0 then infoHeap (driver req).1.pInfo else 0) := by
  rw [createDevice_success V A driver infoHeap registry req hs]
  refine ⟨_, rfl, ?_⟩
  rw [finalizeDevice_DeviceInfo _ _ _ (populateDevice_pInfo V A req)]
  rw [populateDevice_DeviceInfo V A req]

/-- Witness for C1 (amended) at a concrete input: the caller passes a
null info pointer, the driver writes `pInfo = 9`, and the published
record captures the heap contents at 9. -/
theorem C1_capture_iff_nonnull_witness :
    ntSuccess ((fun q : DXGKARG_CREATEDEVICE => ({ q with pInfo := 9 }, 0))
        { hDevice := 256, Flags := 1, pInfo := 0, Pasid := 0, hKmdProcess := 0 }).2 = true
    ∧ ∃ dev, (LJB_DXGK_CreateDevice 0 0 true
          (fun q : DXGKARG_CREATEDEVICE => ({ q with pInfo := 9 }, 0)) (fun p => p + 100) []
          { hDevice := 256, Flags := 1, pInfo := 0, Pasid := 0, hKmdProcess := 0 }).registry
        = [] ++ [dev]
      ∧ dev.DeviceInfo =
          (if ((fun q : DXGKARG_CREATEDEVICE => ({ q with pInfo := 9 }, 0))
              { hDevice := 256, Flags := 1, pInfo := 0, Pasid := 0, hKmdProcess := 0 }).1.pInfo ≠ 0
            then (fun p => p + 100) ((fun q : DXGKARG_CREATEDEVICE => ({ q with pInfo := 9 }, 0))
              { hDevice := 256, Flags := 1, pInfo := 0, Pasid := 0, hKmdProcess := 0 }).1.pInfo
            else 0) :=
  ⟨by decide,
   C1_capture_iff_nonnull 0 0
     (fun q : DXGKARG_CREATEDEVICE => ({ q with pInfo := 9 }, 0)) (fun p => p + 100) []
     { hDevice := 256, Flags := 1, pInfo := 0, Pasid := 0, hKmdProcess := 0 } (by decide)⟩

theorem findLoop_eq_find? (h : Nat) (l : List LJB_DEVICE) :
    findLoop h l = l.find? (fun d => d.hDevice == h) := by
  induction l with
  | nil => rfl
  | cons a as ih =>
      by_cases ha : a.hDevice = h <;> simp [findLoop, List.find?_cons, ha, ih]

theorem findLoop_append_singleton (h : Nat) (l : List LJB_DEVICE) (d : LJB_DEVICE)
    (hl : ∀ x ∈ l, x.hDevice ≠ h) (hd : d.hDevice = h) :
    findLoop h (l ++ [d]) = some d := by
  induction l with
  | nil => simp [findLoop, hd]
  | cons a as ih =>
      have ha : a.hDevice ≠ h := hl a (List.mem_cons_self a as)
      simp only [List.cons_append, findLoop, if_neg ha]
      exact ih (fun x hx => hl x (List.mem_cons_of_mem a hx))

theorem countMatches_append_singleton (h : Nat) (l : List LJB_DEVICE) (d : LJB_DEVICE)
    (hl : ∀ x ∈ l, x.hDevice ≠ h) (hd : d.hDevice = h) :
    countMatches (l ++ [d]) h = 1 := by
  unfold countMatches
  rw [List.countP_append]
  have h0 : l.countP (fun x => x.hDevice = h) = 0 := by
    rw [List.countP_eq_zero]
    intro x hx
    simpa using hl x hx
  simp [h0, hd]

/-- C7: the lookup acquires no state: it returns the device list
unchanged, its loop is exactly a first-match linear scan in insertion
order (it agrees with `List.find?` on the key `hDevice`), and when no
record matches it returns `none` (the `NULL` result) rather than an
error — `none` is returned iff no record carries the handle. -/
theorem C7_find_first_match_or_none (registry : List LJB_DEVICE) (h : Nat) :
    (LJB_DXGK_FindDevice registry h).1 = registry
    ∧ (LJB_DXGK_FindDevice registry h).2.1 = registry.find? (fun d => d.hDevice == h)
    ∧ ((LJB_DXGK_FindDevice registry h).2.1 = none ↔ ∀ d ∈ registry, d.hDevice ≠ h) := by
  refine ⟨rfl, findLoop_eq_find? h registry, ?_⟩
  show findLoop h registry = none ↔ _
  rw [findLoop_eq_find? h registry, List.find?_eq_none]
  simp

/-- C6: immediately after a creation request returns success, looking
up the driver-assigned handle finds exactly the record just published
(the registry holds exactly one match, provided — per the Registry
invariant — no prior record carried that handle), and that record's
`hRTDevice` is the runtime handle the caller originally supplied, even
though the driver overwrote the request's handle field in place. -/
theorem C6_lookup_after_success (V A : Nat)
    (driver : DXGKARG_CREATEDEVICE → DXGKARG_CREATEDEVICE × Nat)
    (infoHeap : Nat → Nat) (registry : List LJB_DEVICE)
    (req : DXGKARG_CREATEDEVICE)
    (hs : ntSuccess (driver req).2 = true)
    (hfresh : ∀ d ∈ registry, d.hDevice ≠ (driver req).1.hDevice) :
    ∃ dev,
      (LJB_DXGK_CreateDevice V A true driver infoHeap registry req).registry
        = registry ++ [dev]
      ∧ (LJB_DXGK_FindDevice
          (LJB_DXGK_CreateDevice V A true driver infoHeap registry req).registry
          (driver req).1.hDevice).2.1 = some dev
      ∧ countMatches (LJB_DXGK_CreateDevice V A true driver infoHeap registry req).registry
          (driver req).1.hDevice = 1
      ∧ dev.hRTDevice = req.hDevice := by
  rw [createDevice_success V A driver infoHeap registry req hs]
  refine ⟨_, rfl, ?_, ?_, ?_⟩
  · show findLoop _ _ = _
    exact findLoop_append_singleton _ registry _ hfresh
      (finalizeDevice_hDevice _ _ infoHeap)
  · exact countMatches_append_singleton _ registry _ hfresh
      (finalizeDevice_hDevice _ _ infoHeap)
  · rw [finalizeDevice_hRTDevice, populateDevice_hRTDevice]

/-- Witness for C6 at the spec's example scenario: runtime handle
`0x100`, flags `1`, a WDDM 2.0 adapter, process association `(7, 0x55)`;
the driver writes its own handle `0x200` into the request and returns
success, leaving `pInfo` untouched. -/
theorem C6_lookup_after_success_witness :
    ntSuccess ((fun q : DXGKARG_CREATEDEVICE => ({ q with hDevice := 0x200 }, 0))
        { hDevice := 0x100, Flags := 1, pInfo := 0, Pasid := 7, hKmdProcess := 0x55 }).2 = true
    ∧ (∀ d ∈ ([] : List LJB_DEVICE),
        d.hDevice ≠ ((fun q : DXGKARG_CREATEDEVICE => ({ q with hDevice := 0x200 }, 0))
          { hDevice := 0x100, Flags := 1, pInfo := 0, Pasid := 7, hKmdProcess := 0x55 }).1.hDevice)
    ∧ ∃ dev,
        (LJB_DXGK_CreateDevice 0x4002 0 true
          (fun q : DXGKARG_CREATEDEVICE => ({ q with hDevice := 0x200 }, 0)) (fun p => p) []
          { hDevice := 0x100, Flags := 1, pInfo := 0, Pasid := 7, hKmdProcess := 0x55 }).registry
          = [] ++ [dev]
        ∧ (LJB_DXGK_FindDevice
            (LJB_DXGK_CreateDevice 0x4002 0 true
              (fun q : DXGKARG_CREATEDEVICE => ({ q with hDevice := 0x200 }, 0)) (fun p => p) []
              { hDevice := 0x100, Flags := 1, pInfo := 0, Pasid := 7, hKmdProcess := 0x55 }).registry
            ((fun q : DXGKARG_CREATEDEVICE => ({ q with hDevice := 0x200 }, 0))
              { hDevice := 0x100, Flags := 1, pInfo := 0, Pasid := 7, hKmdProcess := 0x55 }).1.hDevice).2.1
          = some dev
        ∧ countMatches
            (LJB_DXGK_CreateDevice 0x4002 0 true
              (fun q : DXGKARG_CREATEDEVICE => ({ q with hDevice := 0x200 }, 0)) (fun p => p) []
              { hDevice := 0x100, Flags := 1, pInfo := 0, Pasid := 7, hKmdProcess := 0x55 }).registry
            ((fun q : DXGKARG_CREATEDEVICE => ({ q with hDevice := 0x200 }, 0))
              { hDevice := 0x100, Flags := 1, pInfo := 0, Pasid := 7, hKmdProcess := 0x55 }).1.hDevice
          = 1
        ∧ dev.hRTDevice =
            ({ hDevice := 0x100, Flags := 1, pInfo := 0, Pasid := 7, hKmdProcess := 0x55 }
              : DXGKARG_CREATEDEVICE).hDevice :=
  ⟨by decide, by decide,
   C6_lookup_after_success 0x4002 0
     (fun q : DXGKARG_CREATEDEVICE => ({ q with hDevice := 0x200 }, 0)) (fun p => p) []
     { hDevice := 0x100, Flags := 1, pInfo := 0, Pasid := 7, hKmdProcess := 0x55 }
     (by decide) (by decide)⟩

theorem findTrace_eq (registry : List LJB_DEVICE) (h : Nat) :
    findTrace registry h = [Event.lockAcquire, Event.listScan, Event.lockRelease] := rfl

theorem createTrace_cases (V A : Nat) (allocOk : Bool)
    (driver : DXGKARG_CREATEDEVICE → DXGKARG_CREATEDEVICE × Nat)
    (infoHeap : Nat → Nat) (registry : List LJB_DEVICE)
    (req : DXGKARG_CREATEDEVICE) :
    createTrace V A allocOk driver infoHeap registry req = [Event.allocate]
    ∨ createTrace V A allocOk driver infoHeap registry req
        = [Event.allocate, Event.delegate, Event.freePool]
    ∨ createTrace V A allocOk driver infoHeap registry req
        = [Event.allocate, Event.delegate, Event.writeDriverHandle,
           Event.lockAcquire, Event.listInsert, Event.lockRelease] := by
  cases allocOk with
  | false => exact Or.inl rfl
  | true =>
      cases hs : ntSuccess (driver req).2 with
      | false =>
          refine Or.inr (Or.inl ?_)
          unfold createTrace
          rw [createDevice_downstream_failure V A driver infoHeap registry req hs]
      | true =>
          refine Or.inr (Or.inr ?_)
          unfold createTrace
          rw [createDevice_success V A driver infoHeap registry req hs]

/-- C8: in both operations the spin lock is balanced (released before
returning on every path), it is never held at an allocation or at the
downstream delegation, and while it is held the only events are the
tail insertion (in `LJB_DXGK_CreateDevice`), the lookup scan (in
`LJB_DXGK_FindDevice`), and the release itself. -/
theorem C8_lock_discipline (V A : Nat) (allocOk : Bool)
    (driver : DXGKARG_CREATEDEVICE → DXGKARG_CREATEDEVICE × Nat)
    (infoHeap : Nat → Nat) (registry : List LJB_DEVICE)
    (req : DXGKARG_CREATEDEVICE) (freg : List LJB_DEVICE) (fh : Nat) :
    (createTrace V A allocOk driver infoHeap registry req).count Event.lockAcquire
      = (createTrace V A allocOk driver infoHeap registry req).count Event.lockRelease
    ∧ (∀ i, i < (createTrace V A allocOk driver infoHeap registry req).length →
        ((createTrace V A allocOk driver infoHeap registry req).getD i Event.lockRelease
            = Event.allocate
          ∨ (createTrace V A allocOk driver infoHeap registry req).getD i Event.lockRelease
            = Event.delegate) →
        lockDepth ((createTrace V A allocOk driver infoHeap registry req).take i) = 0)
    ∧ (∀ i, i < (createTrace V A allocOk driver infoHeap registry req).length →
        0 < lockDepth ((createTrace V A allocOk driver infoHeap registry req).take i) →
        ((createTrace V A allocOk driver infoHeap registry req).getD i Event.allocate
            = Event.listInsert
          ∨ (createTrace V A allocOk driver infoHeap registry req).getD i Event.allocate
            = Event.lockRelease))
    ∧ (findTrace freg fh).count Event.lockAcquire = (findTrace freg fh).count Event.lockRelease
    ∧ (∀ i, i < (findTrace freg fh).length →
        0 < lockDepth ((findTrace freg fh).take i) →
        ((findTrace freg fh).getD i Event.allocate = Event.listScan
          ∨ (findTrace freg fh).getD i Event.allocate = Event.lockRelease)) := by
  rw [findTrace_eq freg fh]
  rcases createTrace_cases V A allocOk driver infoHeap registry req with h | h | h <;>
    rw [h] <;>
    exact ⟨by decide, by decide, by decide, by decide, by decide⟩

/-- C5: a record is appended to the device list iff the allocation and
the downstream creation both succeed, the published record carries the
driver-assigned handle, and on that path the trace writes the driver
handle exactly once — strictly after the delegation event and strictly
before the insertion event; on every other path nothing is inserted and
the driver-handle write never happens. -/
theorem C5_publish_iff_success (V A : Nat) (allocOk : Bool)
    (driver : DXGKARG_CREATEDEVICE → DXGKARG_CREATEDEVICE × Nat)
    (infoHeap : Nat → Nat) (registry : List LJB_DEVICE)
    (req : DXGKARG_CREATEDEVICE) :
    ((allocOk = true ∧ ntSuccess (driver req).2 = true) →
      ∃ dev, (LJB_DXGK_CreateDevice V A allocOk driver infoHeap registry req).registry
          = registry ++ [dev]
        ∧ dev.hDevice = (driver req).1.hDevice
        ∧ (createTrace V A allocOk driver infoHeap registry req).count
            Event.writeDriverHandle = 1
        ∧ evIdx Event.delegate (createTrace V A allocOk driver infoHeap registry req)
            < evIdx Event.writeDriverHandle (createTrace V A allocOk driver infoHeap registry req)
        ∧ evIdx Event.writeDriverHandle (createTrace V A allocOk driver infoHeap registry req)
            < evIdx Event.listInsert (createTrace V A allocOk driver infoHeap registry req))
    ∧ (¬(allocOk = true ∧ ntSuccess (driver req).2 = true) →
      (LJB_DXGK_CreateDevice V A allocOk driver infoHeap registry req).registry = registry
      ∧ (createTrace V A allocOk driver infoHeap registry req).count
          Event.writeDriverHandle = 0) := by
  cases allocOk with
  | false =>
      constructor
      · rintro ⟨hc, -⟩
        exact absurd hc (by decide)
      · intro _
        exact ⟨rfl, by rw [show createTrace V A false driver infoHeap registry req
            = [Event.allocate] from rfl]; decide⟩
  | true =>
      cases hs : ntSuccess (driver req).2 with
      | false =>
          constructor
          · rintro ⟨-, hc⟩
            exact absurd hc (by decide)
          · intro _
            have ht : createTrace V A true driver infoHeap registry req
                = [Event.allocate, Event.delegate, Event.freePool] := by
              unfold createTrace
              rw [createDevice_downstream_failure V A driver infoHeap registry req hs]
            rw [ht, createDevice_downstream_failure V A driver infoHeap registry req hs]
            exact ⟨rfl, by decide⟩
      | true =>
          constructor
          · intro _
            have ht : createTrace V A true driver infoHeap registry req
                = [Event.allocate, Event.delegate, Event.writeDriverHandle,
                   Event.lockAcquire, Event.listInsert, Event.lockRelease] := by
              unfold createTrace
              rw [createDevice_success V A driver infoHeap registry req hs]
            rw [ht, createDevice_success V A driver infoHeap registry req hs]
            exact ⟨_, rfl, finalizeDevice_hDevice _ _ infoHeap,
              by decide, by decide, by decide⟩
          · intro hc
            exact absurd ⟨rfl, rfl⟩ hc
